import Mathlib

/-!
Verification development for the bg-switch progressive deployment operator.

The Go controller (package `controller`) is embedded shallowly:

* `calculateReplicaDistribution` mirrors the pure replica-split function.
* The reconcile state machine (`Reconcile` dispatching to `handleInitializing`,
  `handleAnalyzing`, `handlePromoting`, `handleRollingBack`) is embedded as a
  pure step function over the persisted status.  Cluster reads (the target and
  canary Deployments) are supplied through an `Env` record; cluster writes
  (replica updates, canary creation) are recorded in an effect trace; the
  returned status is the status committed by `updateStatus`.  Error returns of
  the Go handlers are the `err` flag of the outcome; on an error path the
  persisted status is whatever the handler had successfully committed before
  failing, exactly as in the Go code.
* The metrics evaluator (`AnalyzeHealth` / `QueryMetric`) is embedded with the
  Prometheus backend abstracted as a function from query strings to results.
  Go float64 metric values are modelled as rationals; every comparison the code
  performs is a strict order comparison, which agrees with IEEE comparison on
  the values involved.
* Machine integers (Go int / int32) are modelled as `Int`; the float64 ceiling
  computation of the replica split is modelled as exact ceiling division, which
  agrees with the Go computation on the whole int32 replica domain because the
  product of an int32 total with a percentage below 100 stays far below 2^53.
* Durations and timestamps (Go time.Duration / metav1.Time) are modelled as
  `Nat`; the monotone-clock subtraction now.Sub(t0) becomes truncated `Nat`
  subtraction.
-/

namespace BgSwitch

/-- Exact ceiling division by 100: `ceilDiv100 a = ⌈a / 100⌉`.  Mirrors the Go
expression `math.Ceil(float64(total) * float64(percent) / 100.0)`, which is
exact on the int32 replica domain.  Since `Int` division is floor division for
a positive divisor, `(a + 99) / 100` is the ceiling of `a / 100` for every
integer `a`. -/
def ceilDiv100 (a : Int) : Int := (a + 99) / 100

/-- Embeds the Go function `calculateReplicaDistribution(totalReplicas,
canaryPercentage int) (stableReplicas, canaryReplicas int32)` from the
controller: percentage at most 0 keeps everything stable; at least 100 moves
everything to the canary; otherwise the canary gets the ceiling share and the
stable deployment the rest, with both counts clamped to be nonnegative. -/
def calculateReplicaDistribution (totalReplicas canaryPercentage : Int) : Int × Int :=
  if canaryPercentage ≤ 0 then (totalReplicas, 0)
  else if 100 ≤ canaryPercentage then (0, totalReplicas)
  else
    let canaryReplicas := ceilDiv100 (totalReplicas * canaryPercentage)
    let stableReplicas := totalReplicas - canaryReplicas
    (if stableReplicas < 0 then 0 else stableReplicas,
     if canaryReplicas < 0 then 0 else canaryReplicas)

/-- Mirrors the API type `MetricThreshold`: a PromQL query string plus the
maximum acceptable value (float64 in Go, modelled as a rational). -/
structure MetricThreshold where
  query : String
  threshold : ℚ
deriving DecidableEq, Repr

/-- Mirrors the API type `MetricsConfig` with its two named checks. -/
structure MetricsConfig where
  prometheusURL : String
  errorRate : MetricThreshold
  latency : MetricThreshold
deriving DecidableEq, Repr

/-- Mirrors `ProgressiveDeploymentSpec` (the desired state).  The step
duration is an abstract `Nat` number of time units. -/
structure ProgressiveDeploymentSpec where
  targetDeployment : String
  canarySteps : List Int
  stepDuration : Nat
  metrics : MetricsConfig
  autoPromote : Bool
deriving DecidableEq, Repr

/-- Mirrors `ProgressiveDeploymentStatus` (the observed state).  The
`lastAnalysisTime` pointer field becomes an `Option Nat`; the observed metric
map becomes an optional association list (`none` is the Go nil map). -/
structure ProgressiveDeploymentStatus where
  phase : String
  currentStep : Int
  canaryPercentage : Int
  canaryDeployment : String
  healthStatus : String
  metrics : Option (List (String × ℚ))
  lastAnalysisTime : Option Nat
deriving DecidableEq, Repr

/-- A workload Deployment as the controller sees it: its name and its desired
replica count. -/
structure Deployment where
  name : String
  replicas : Int
deriving DecidableEq, Repr

/-- Mirrors ctrl.Result: an immediate-requeue flag and a requeue-after
duration (zero when unset). -/
structure CtrlResult where
  requeue : Bool
  requeueAfter : Nat
deriving DecidableEq, Repr

/-- A cluster write performed by a handler: updating the replica count of a
named Deployment (r.Update) or creating a canary Deployment (r.Create). -/
inductive Effect where
  | updateReplicas : String → Int → Effect
  | createDeployment : String → Int → Effect
deriving DecidableEq, Repr

/-- The cluster reads available to one reconcile invocation: the current time
and the results of fetching the target and the canary Deployment (`none` is a
failed or not-found Get). -/
structure Env where
  now : Nat
  targetDeployment : Option Deployment
  canaryDeployment : Option Deployment

/-- Outcome of one handler call: the status as persisted when the call
returns, the returned ctrl.Result, the trace of cluster writes, and whether
the call returned an error. -/
structure StepOutcome where
  status : ProgressiveDeploymentStatus
  result : CtrlResult
  effects : List Effect
  err : Bool
deriving DecidableEq, Repr

/-- Embeds `adjustTraffic`: compute the replica split for the current canary
percentage, update the stable (target) Deployment, then fetch and update the
canary Deployment.  Returns the write trace and the error flag; when the
canary fetch fails the stable update has already happened, as in the Go
code. -/
def adjustTraffic (env : Env) (st : ProgressiveDeploymentStatus)
    (targetDeployment : Deployment) : List Effect × Bool :=
  let totalReplicas := targetDeployment.replicas
  let d := calculateReplicaDistribution totalReplicas st.canaryPercentage
  let effStable := Effect.updateReplicas targetDeployment.name d.1
  match env.canaryDeployment with
  | none => ([effStable], true)
  | some canary => ([effStable, Effect.updateReplicas canary.name d.2], false)

/-- Embeds `createCanaryDeployment`: the canary is a clone of the target named
`<target>-canary`, created with 0 replicas; if it already exists the existing
Deployment is returned unchanged. -/
def createCanaryDeployment (env : Env) (spec : ProgressiveDeploymentSpec) :
    Deployment × List Effect :=
  let canaryName := spec.targetDeployment ++ "-canary"
  match env.canaryDeployment with
  | some existing => (existing, [])
  | none => ({ name := canaryName, replicas := 0 }, [Effect.createDeployment canaryName 0])

/-- Embeds `handleInitializing`: fetch the target (failure moves the record to
Failed and returns the error), create or find the canary clone, then commit
phase Analyzing at step 0 with the first configured percentage. -/
def handleInitializing (env : Env) (spec : ProgressiveDeploymentSpec)
    (st : ProgressiveDeploymentStatus) : StepOutcome :=
  match env.targetDeployment with
  | none =>
      { status := { st with phase := "Failed", healthStatus := "Unknown" },
        result := { requeue := false, requeueAfter := 0 }, effects := [], err := true }
  | some _ =>
      let c := createCanaryDeployment env spec
      { status := { st with phase := "Analyzing", currentStep := 0,
                            canaryPercentage := spec.canarySteps.getD 0 0,
                            canaryDeployment := c.1.name, healthStatus := "Unknown" },
        result := { requeue := false, requeueAfter := 0 }, effects := c.2, err := false }

/-- Embeds `handleAnalyzing` exactly as written in the controller source.
With no analysis timestamp: fetch the target, adjust traffic, stamp the
timestamp and request a wake after stepDuration.  With a timestamp and elapsed
time below stepDuration: request a wake after the remaining time.  Otherwise
the code contains only a TODO for the Prometheus query and unconditionally
commits phase Promoting with health Healthy and a cleared timestamp. -/
def handleAnalyzing (env : Env) (spec : ProgressiveDeploymentSpec)
    (st : ProgressiveDeploymentStatus) : StepOutcome :=
  let stepDuration := spec.stepDuration
  let now := env.now
  match st.lastAnalysisTime with
  | none =>
      match env.targetDeployment with
      | none =>
          { status := st, result := { requeue := false, requeueAfter := 0 },
            effects := [], err := true }
      | some targetDeployment =>
          let a := adjustTraffic env st targetDeployment
          if a.2 then
            { status := st, result := { requeue := false, requeueAfter := 0 },
              effects := a.1, err := true }
          else
            { status := { st with lastAnalysisTime := some now },
              result := { requeue := false, requeueAfter := stepDuration },
              effects := a.1, err := false }
  | some t0 =>
      let elapsed := now - t0
      if elapsed < stepDuration then
        { status := st,
          result := { requeue := false, requeueAfter := stepDuration - elapsed },
          effects := [], err := false }
      else
        { status := { st with phase := "Promoting", healthStatus := "Healthy",
                              lastAnalysisTime := none },
          result := { requeue := false, requeueAfter := 0 }, effects := [], err := false }

/-- Embeds `handlePromoting`: at the last step index the record completes with
percentage 100; otherwise the step advances and the phase returns to Analyzing
with the next configured percentage and an immediate requeue. -/
def handlePromoting (spec : ProgressiveDeploymentSpec)
    (st : ProgressiveDeploymentStatus) : StepOutcome :=
  if (spec.canarySteps.length : Int) - 1 ≤ st.currentStep then
    { status := { st with phase := "Completed", canaryPercentage := 100 },
      result := { requeue := false, requeueAfter := 0 }, effects := [], err := false }
  else
    let nextStep := st.currentStep + 1
    { status := { st with currentStep := nextStep,
                          canaryPercentage := spec.canarySteps.getD nextStep.toNat 0,
                          phase := "Analyzing" },
      result := { requeue := true, requeueAfter := 0 }, effects := [], err := false }

/-- Embeds `handleRollingBack` exactly as written: the restore of the stable
Deployment and the canary deletion are TODO comments in the source, so the
handler only commits phase RolledBack with percentage 0. -/
def handleRollingBack (st : ProgressiveDeploymentStatus) : StepOutcome :=
  { status := { st with phase := "RolledBack", canaryPercentage := 0 },
    result := { requeue := false, requeueAfter := 0 }, effects := [], err := false }

/-- Embeds the `Reconcile` state-machine dispatch over an already-fetched
record: an unset phase is initialized, each known phase goes to its handler,
the three terminal phases do nothing, and an unrecognized phase is reset to
Initializing. -/
def Reconcile (env : Env) (spec : ProgressiveDeploymentSpec)
    (st : ProgressiveDeploymentStatus) : StepOutcome :=
  if st.phase = "" then
    { status := { st with phase := "Initializing", currentStep := 0,
                          canaryPercentage := 0, healthStatus := "Unknown" },
      result := { requeue := false, requeueAfter := 0 }, effects := [], err := false }
  else if st.phase = "Initializing" then handleInitializing env spec st
  else if st.phase = "Analyzing" then handleAnalyzing env spec st
  else if st.phase = "Promoting" then handlePromoting spec st
  else if st.phase = "RollingBack" then handleRollingBack st
  else if st.phase = "Completed" ∨ st.phase = "RolledBack" ∨ st.phase = "Failed" then
    { status := st, result := { requeue := false, requeueAfter := 0 },
      effects := [], err := false }
  else
    { status := { st with phase := "Initializing" },
      result := { requeue := false, requeueAfter := 0 }, effects := [], err := false }

/-- Result of one Prometheus instant query, per the query interface: a vector
of sample values or a scalar. -/
inductive PromResult where
  | vector : List ℚ → PromResult
  | scalar : ℚ → PromResult
deriving DecidableEq, Repr

/-- Embeds `QueryMetric` applied to the outcome of the backend call: a backend
error is wrapped and propagated, an empty vector is the error "no data
returned from query", a nonempty vector yields its first sample, and a scalar
is used directly. -/
def QueryMetric (result : Except String PromResult) : Except String ℚ :=
  match result with
  | .error e => .error ("error querying prometheus: " ++ e)
  | .ok (.vector []) => .error "no data returned from query"
  | .ok (.vector (v :: _)) => .ok v
  | .ok (.scalar v) => .ok v

/-- One configured-check block of `AnalyzeHealth`: skipped when the query
string is empty; otherwise the query runs, a failure aborts the evaluation,
and a success appends the observed value under the check name and clears the
healthy flag when the value strictly exceeds the threshold. -/
def checkMetric (backend : String → Except String PromResult) (name : String)
    (mt : MetricThreshold) (acc : List (String × ℚ) × Bool) :
    Except String (List (String × ℚ) × Bool) :=
  if mt.query = "" then .ok acc
  else
    match QueryMetric (backend mt.query) with
    | .error e => .error (name ++ " query failed: " ++ e)
    | .ok v => .ok (acc.1 ++ [(name, v)], if mt.threshold < v then false else acc.2)

/-- Embeds `AnalyzeHealth`: starting from an empty observed map and an
optimistic healthy flag, the errorRate check runs first and the latency check
second; a query failure returns `(false, nil-map, error)`; with no check
configured the verdict is healthy with the empty map; otherwise the
accumulated flag and map are returned with no error.  The triple mirrors the
Go return `(bool, map[string]float64, error)`. -/
def AnalyzeHealth (backend : String → Except String PromResult) (cfg : MetricsConfig) :
    Bool × Option (List (String × ℚ)) × Option String :=
  match checkMetric backend "errorRate" cfg.errorRate ([], true) with
  | .error e => (false, none, some e)
  | .ok acc1 =>
      match checkMetric backend "latency" cfg.latency acc1 with
      | .error e => (false, none, some e)
      | .ok acc2 =>
          if acc2.1.length = 0 then (true, some acc2.1, none)
          else (acc2.2, some acc2.1, none)

/-- Status invariant of the claims: a non-null analysis timestamp implies the
record is in phase Analyzing. -/
def analysisTimestampInv (st : ProgressiveDeploymentStatus) : Prop :=
  st.lastAnalysisTime.isSome = true → st.phase = "Analyzing"

/-- Metrics configuration with no check configured (both query strings
empty). -/
def exCfgNone : MetricsConfig :=
  { prometheusURL := "", errorRate := { query := "", threshold := 0 },
    latency := { query := "", threshold := 0 } }

/-- Metrics configuration with only the errorRate check configured, threshold
1. -/
def exCfgErrorRate : MetricsConfig :=
  { prometheusURL := "", errorRate := { query := "q-err", threshold := 1 },
    latency := { query := "", threshold := 0 } }

/-- Metrics configuration with both checks configured: errorRate threshold 1,
latency threshold 500. -/
def exCfgBoth : MetricsConfig :=
  { prometheusURL := "", errorRate := { query := "q-err", threshold := 1 },
    latency := { query := "q-lat", threshold := 500 } }

/-- Desired state fixture: target "app", steps [10, 50], step duration 60,
no metric checks, automatic promotion on. -/
def exSpec : ProgressiveDeploymentSpec :=
  { targetDeployment := "app", canarySteps := [10, 50], stepDuration := 60,
    metrics := exCfgNone, autoPromote := true }

/-- Desired state fixture with the errorRate check configured. -/
def exSpecMetrics : ProgressiveDeploymentSpec :=
  { targetDeployment := "app", canarySteps := [10, 50], stepDuration := 60,
    metrics := exCfgErrorRate, autoPromote := true }

/-- Desired state fixture with automatic promotion switched off. -/
def exSpecNoAuto : ProgressiveDeploymentSpec :=
  { targetDeployment := "app", canarySteps := [10, 50], stepDuration := 60,
    metrics := exCfgNone, autoPromote := false }

/-- Cluster fixture at time 0 with a 10-replica target and an existing canary
at 0 replicas. -/
def exEnv0 : Env :=
  { now := 0, targetDeployment := some { name := "app", replicas := 10 },
    canaryDeployment := some { name := "app-canary", replicas := 0 } }

/-- Cluster fixture at time 60 (one full step duration later). -/
def exEnv60 : Env :=
  { now := 60, targetDeployment := some { name := "app", replicas := 10 },
    canaryDeployment := some { name := "app-canary", replicas := 1 } }

/-- Cluster fixture during a rollback: the stable Deployment was scaled down
to 7 replicas (pre-rollout it had 10) and the canary holds 3. -/
def exEnvRollback : Env :=
  { now := 120, targetDeployment := some { name := "app", replicas := 7 },
    canaryDeployment := some { name := "app-canary", replicas := 3 } }

/-- Status fixture: freshly in Analyzing at step 0, traffic not yet applied
(no analysis timestamp). -/
def exAnalyzingFresh : ProgressiveDeploymentStatus :=
  { phase := "Analyzing", currentStep := 0, canaryPercentage := 10,
    canaryDeployment := "app-canary", healthStatus := "Unknown", metrics := none,
    lastAnalysisTime := none }

/-- Status fixture: in Analyzing with the analysis timestamp stamped at time
0, so at time 60 the full step duration has elapsed. -/
def exAnalyzingDue : ProgressiveDeploymentStatus :=
  { phase := "Analyzing", currentStep := 0, canaryPercentage := 10,
    canaryDeployment := "app-canary", healthStatus := "Unknown", metrics := none,
    lastAnalysisTime := some 0 }

/-- Status fixture: in RollingBack at step 1 with 50 percent canary traffic. -/
def exRollingBack : ProgressiveDeploymentStatus :=
  { phase := "RollingBack", currentStep := 1, canaryPercentage := 50,
    canaryDeployment := "app-canary", healthStatus := "Unhealthy", metrics := none,
    lastAnalysisTime := none }

/-- Status fixture: a completed record. -/
def exCompleted : ProgressiveDeploymentStatus :=
  { phase := "Completed", currentStep := 1, canaryPercentage := 100,
    canaryDeployment := "app-canary", healthStatus := "Healthy", metrics := none,
    lastAnalysisTime := none }

/-- Backend fixture whose every query returns the single sample 5 — above the
errorRate threshold 1, so the evaluator verdict on `exCfgErrorRate` is
unhealthy. -/
def exBackendUnhealthy : String → Except String PromResult :=
  fun _ => Except.ok (PromResult.vector [5])

/-- Backend fixture answering the errorRate query with sample 1 (equal to the
threshold, hence healthy) and every other query with scalar 200. -/
def exBackendHealthy : String → Except String PromResult :=
  fun q => if q = "q-err" then Except.ok (PromResult.vector [1])
           else Except.ok (PromResult.scalar 200)

/-- Backend fixture where the errorRate query succeeds with sample 2 but the
latency query fails with a transport error. -/
def exBackendLatencyDown : String → Except String PromResult :=
  fun q => if q = "q-err" then Except.ok (PromResult.vector [2])
           else Except.error "connection refused"

/-- Percentage at most 0: everything stays on the stable Deployment. -/
theorem calcDist_le_zero (total p : Int) (h : p ≤ 0) :
    calculateReplicaDistribution total p = (total, 0) := by
  unfold calculateReplicaDistribution
  rw [if_pos h]

/-- Percentage at least 100: everything moves to the canary Deployment. -/
theorem calcDist_ge_hundred (total p : Int) (h : 100 ≤ p) :
    calculateReplicaDistribution total p = (0, total) := by
  unfold calculateReplicaDistribution
  rw [if_neg (by omega), if_pos h]

/-- Bounds on the ceiling share: for a nonnegative total and a percentage in
(0, 100) the canary share is between 0 and the total. -/
theorem ceilDiv100_bounds (total p : Int) (htotal : 0 ≤ total) (h1 : 0 < p) (h2 : p < 100) :
    0 ≤ ceilDiv100 (total * p) ∧ ceilDiv100 (total * p) ≤ total := by
  have ha : 0 ≤ total * p := mul_nonneg htotal h1.le
  have hb : total * p ≤ total * 100 := mul_le_mul_of_nonneg_left h2.le htotal
  unfold ceilDiv100
  omega

/-- Middle branch in closed form: the clamps never fire for a nonnegative
total, so the result is exactly (total − ceiling share, ceiling share). -/
theorem calcDist_mid (total p : Int) (htotal : 0 ≤ total) (h1 : 0 < p) (h2 : p < 100) :
    calculateReplicaDistribution total p
      = (total - ceilDiv100 (total * p), ceilDiv100 (total * p)) := by
  obtain ⟨hc0, hct⟩ := ceilDiv100_bounds total p htotal h1 h2
  unfold calculateReplicaDistribution
  rw [if_neg (by omega), if_neg (by omega)]
  simp only
  rw [if_neg (by omega), if_neg (by omega)]

/-- C1: the replica distribution function implements the distribute contract:
for total ≥ 0, percentage at most 0 yields (total, 0); at least 100 yields
(0, total); in between the canary gets the ceiling share and the stable the
rest; the two counts always add to the total; and the canary is at least 1
whenever total ≥ 1 and the percentage is at least 1. -/
theorem calculateReplicaDistribution_spec (total p : Int) (htotal : 0 ≤ total) :
    (p ≤ 0 → calculateReplicaDistribution total p = (total, 0)) ∧
    (100 ≤ p → calculateReplicaDistribution total p = (0, total)) ∧
    (0 < p → p < 100 →
      (calculateReplicaDistribution total p).2 = ceilDiv100 (total * p) ∧
      (calculateReplicaDistribution total p).1 = total - ceilDiv100 (total * p)) ∧
    (calculateReplicaDistribution total p).1 + (calculateReplicaDistribution total p).2
      = total ∧
    (1 ≤ total → 1 ≤ p → 1 ≤ (calculateReplicaDistribution total p).2) := by
  refine ⟨fun h => calcDist_le_zero total p h, fun h => calcDist_ge_hundred total p h,
    fun h1 h2 => by rw [calcDist_mid total p htotal h1 h2]; exact ⟨rfl, rfl⟩, ?_, ?_⟩
  · rcases le_or_lt p 0 with h | h1
    · rw [calcDist_le_zero total p h]; ring
    rcases le_or_lt 100 p with h | h2
    · rw [calcDist_ge_hundred total p h]; ring
    rw [calcDist_mid total p htotal h1 h2]; ring
  · intro ht hp
    rcases le_or_lt 100 p with h | h2
    · rw [calcDist_ge_hundred total p h]; exact ht
    rw [calcDist_mid total p htotal (by omega) h2]
    have ha : (1 : Int) ≤ total * p := by
      have := mul_pos (show (0 : Int) < total by omega) (show (0 : Int) < p by omega)
      omega
    unfold ceilDiv100
    omega

/-- Concrete instantiation of the distribute contract at total = 10,
percentage = 25: the split is (7, 3). -/
theorem calculateReplicaDistribution_spec_witness :
    ((25 : Int) ≤ 0 → calculateReplicaDistribution 10 25 = (10, 0)) ∧
    ((100 : Int) ≤ 25 → calculateReplicaDistribution 10 25 = (0, 10)) ∧
    ((0 : Int) < 25 → (25 : Int) < 100 →
      (calculateReplicaDistribution 10 25).2 = ceilDiv100 (10 * 25) ∧
      (calculateReplicaDistribution 10 25).1 = 10 - ceilDiv100 (10 * 25)) ∧
    (calculateReplicaDistribution 10 25).1 + (calculateReplicaDistribution 10 25).2
      = 10 ∧
    ((1 : Int) ≤ 10 → (1 : Int) ≤ 25 → 1 ≤ (calculateReplicaDistribution 10 25).2) :=
  calculateReplicaDistribution_spec 10 25 (by decide)

/-- C5: once the phase is Completed, RolledBack, or Failed, a reconcile
invocation returns the status completely unchanged, performs no cluster
writes, requests no requeue and reports no error. -/
theorem reconcile_terminal_absorbing (env : Env) (spec : ProgressiveDeploymentSpec)
    (st : ProgressiveDeploymentStatus)
    (h : st.phase = "Completed" ∨ st.phase = "RolledBack" ∨ st.phase = "Failed") :
    Reconcile env spec st =
      { status := st, result := { requeue := false, requeueAfter := 0 },
        effects := [], err := false } := by
  unfold Reconcile
  rcases h with h | h | h <;> simp [h]

/-- Concrete instantiation of terminal absorption at a completed record. -/
theorem reconcile_terminal_absorbing_witness :
    Reconcile exEnv60 exSpec exCompleted =
      { status := exCompleted, result := { requeue := false, requeueAfter := 0 },
        effects := [], err := false } :=
  reconcile_terminal_absorbing exEnv60 exSpec exCompleted (Or.inl rfl)

/-- C4: on a record in Analyzing with no analysis timestamp, a successful
reconcile stamps the timestamp; re-invoking immediately (same clock reading)
performs no cluster writes, leaves the whole persisted status — in particular
phase and canary percentage — unchanged, reports no error, and only requests
a wake after the remaining wait, which is the full step duration. -/
theorem reconcile_analyzing_idempotent (env : Env) (spec : ProgressiveDeploymentSpec)
    (st : ProgressiveDeploymentStatus)
    (hphase : st.phase = "Analyzing") (hts : st.lastAnalysisTime = none)
    (hdur : 0 < spec.stepDuration)
    (hok : (Reconcile env spec st).err = false) :
    (Reconcile env spec (Reconcile env spec st).status).effects = [] ∧
    (Reconcile env spec (Reconcile env spec st).status).status
      = (Reconcile env spec st).status ∧
    (Reconcile env spec (Reconcile env spec st).status).err = false ∧
    (Reconcile env spec (Reconcile env spec st).status).result
      = { requeue := false, requeueAfter := spec.stepDuration } := by
  rcases htd : env.targetDeployment with _ | target
  · exfalso
    unfold Reconcile handleAnalyzing at hok
    simp [hphase, hts, htd] at hok
  rcases hcd : env.canaryDeployment with _ | canary
  · exfalso
    unfold Reconcile handleAnalyzing adjustTraffic at hok
    simp [hphase, hts, htd, hcd] at hok
  have h1 : Reconcile env spec st =
      { status := { st with lastAnalysisTime := some env.now },
        result := { requeue := false, requeueAfter := spec.stepDuration },
        effects := (adjustTraffic env st target).1, err := false } := by
    unfold Reconcile handleAnalyzing
    simp [hphase, hts, htd, adjustTraffic, hcd]
  rw [h1]
  unfold Reconcile handleAnalyzing
  simp [hphase, hdur]

/-- Concrete instantiation of analyzing-step idempotence. -/
theorem reconcile_analyzing_idempotent_witness :
    (Reconcile exEnv0 exSpec (Reconcile exEnv0 exSpec exAnalyzingFresh).status).effects = [] ∧
    (Reconcile exEnv0 exSpec (Reconcile exEnv0 exSpec exAnalyzingFresh).status).status
      = (Reconcile exEnv0 exSpec exAnalyzingFresh).status ∧
    (Reconcile exEnv0 exSpec (Reconcile exEnv0 exSpec exAnalyzingFresh).status).err = false ∧
    (Reconcile exEnv0 exSpec (Reconcile exEnv0 exSpec exAnalyzingFresh).status).result
      = { requeue := false, requeueAfter := exSpec.stepDuration } :=
  reconcile_analyzing_idempotent exEnv0 exSpec exAnalyzingFresh rfl rfl (by decide) rfl

/-- C2 (code evidence): on a record in Analyzing whose wait has fully elapsed
and whose configured errorRate check would yield an unhealthy verdict
(observed 5 against threshold 1, third conjunct), the reconcile step commits
phase Promoting with health Healthy anyway: the handler contains only a TODO
where the metrics evaluation should run and never branches to RollingBack. -/
theorem handleAnalyzing_promotes_despite_unhealthy_metrics :
    (Reconcile exEnv60 exSpecMetrics exAnalyzingDue).status.phase = "Promoting" ∧
    (Reconcile exEnv60 exSpecMetrics exAnalyzingDue).status.healthStatus = "Healthy" ∧
    (AnalyzeHealth exBackendUnhealthy exSpecMetrics.metrics).1 = false :=
  ⟨rfl, rfl, rfl⟩

/-- C3 (code evidence): with the automatic-promotion flag off and a completed
Analyzing wait, the reconcile step still commits phase Promoting on its own:
the handler never reads the autoPromote field. -/
theorem handleAnalyzing_ignores_autoPromote :
    exSpecNoAuto.autoPromote = false ∧
    (Reconcile exEnv60 exSpecNoAuto exAnalyzingDue).status.phase = "Promoting" :=
  ⟨rfl, rfl⟩

/-- C6 (code evidence): a reconcile of a record in RollingBack (stable scaled
down to 7 of its pre-rollout 10 replicas, canary at 3) performs no cluster
write at all — neither restoring the stable Deployment nor scaling or deleting
the canary — while committing phase RolledBack with percentage 0. -/
theorem handleRollingBack_performs_no_restore :
    (Reconcile exEnvRollback exSpec exRollingBack).effects = [] ∧
    (Reconcile exEnvRollback exSpec exRollingBack).status.phase = "RolledBack" ∧
    (Reconcile exEnvRollback exSpec exRollingBack).status.canaryPercentage = 0 :=
  ⟨rfl, rfl, rfl⟩

/-- A record satisfying the timestamp invariant that is not in Analyzing has
a null timestamp. -/
theorem inv_ts_none (st : ProgressiveDeploymentStatus)
    (hinv : analysisTimestampInv st) (h : st.phase ≠ "Analyzing") :
    st.lastAnalysisTime = none := by
  cases hlt : st.lastAnalysisTime with
  | none => rfl
  | some t => exact absurd (hinv (by simp [hlt])) h

/-- Every reconcile step preserves the timestamp invariant: a non-null
analysis timestamp keeps implying phase Analyzing. -/
theorem reconcile_preserves_inv (env : Env) (spec : ProgressiveDeploymentSpec)
    (st : ProgressiveDeploymentStatus) (hinv : analysisTimestampInv st) :
    analysisTimestampInv (Reconcile env spec st).status := by
  unfold analysisTimestampInv
  unfold Reconcile
  split_ifs with h0 h1 h2 h3 h4 h5
  · simp [inv_ts_none st hinv (by rw [h0]; decide)]
  · rcases htd : env.targetDeployment with _ | t
    · simp [handleInitializing, htd,
        inv_ts_none st hinv (by rw [h1]; decide)]
    · simp [handleInitializing, htd]
  · unfold handleAnalyzing
    rcases hts : st.lastAnalysisTime with _ | t0
    · rcases htd : env.targetDeployment with _ | t
      · simp [htd, hts]
      · simp only [htd, hts]
        split_ifs <;> simp [hts, h2]
    · simp only [hts]
      split_ifs <;> simp [hts, h2]
  · unfold handlePromoting
    split_ifs <;> simp [inv_ts_none st hinv (by rw [h3]; decide)]
  · simp [handleRollingBack, inv_ts_none st hinv (by rw [h4]; decide)]
  · simpa using hinv
  · simp [inv_ts_none st hinv h2]

/-- Every engine transition out of Analyzing commits a null analysis
timestamp. -/
theorem reconcile_exit_clears (env : Env) (spec : ProgressiveDeploymentSpec)
    (st : ProgressiveDeploymentStatus) (hph : st.phase = "Analyzing")
    (hexit : (Reconcile env spec st).status.phase ≠ "Analyzing") :
    (Reconcile env spec st).status.lastAnalysisTime = none := by
  unfold Reconcile handleAnalyzing at *
  simp [hph] at hexit ⊢
  rcases hts : st.lastAnalysisTime with _ | t0 <;> simp [hts] at hexit ⊢
  · rcases htd : env.targetDeployment with _ | t <;> simp [htd] at hexit ⊢
    · exact absurd hph hexit
    · split_ifs at hexit ⊢
      · simp at hexit ⊢
        exact absurd hph hexit
      · simp at hexit ⊢
  · split_ifs at hexit ⊢
    · simp at hexit ⊢
      exact absurd hph hexit
    · simp at hexit ⊢

/-- The step that stamps the timestamp is the step that applies traffic: a
successful reconcile of an Analyzing record with a null timestamp both sets
the timestamp and emits cluster scaling writes. -/
theorem reconcile_arm_applies_traffic (env : Env) (spec : ProgressiveDeploymentSpec)
    (st : ProgressiveDeploymentStatus) (hph : st.phase = "Analyzing")
    (hts : st.lastAnalysisTime = none) (hok : (Reconcile env spec st).err = false) :
    (Reconcile env spec st).status.lastAnalysisTime.isSome = true ∧
    (Reconcile env spec st).effects ≠ [] := by
  unfold Reconcile handleAnalyzing at *
  simp [hph, hts] at hok ⊢
  rcases htd : env.targetDeployment with _ | t <;> simp [htd] at hok ⊢
  unfold adjustTraffic at *
  rcases hcd : env.canaryDeployment with _ | c <;> simp [hcd] at hok ⊢

/-- Once the timestamp is stamped, a reconcile of the Analyzing record emits
no cluster write (no re-application of traffic). -/
theorem reconcile_armed_no_rescale (env : Env) (spec : ProgressiveDeploymentSpec)
    (st : ProgressiveDeploymentStatus) (hph : st.phase = "Analyzing")
    (t0 : Nat) (hts : st.lastAnalysisTime = some t0) :
    (Reconcile env spec st).effects = [] := by
  unfold Reconcile handleAnalyzing
  simp [hph, hts]
  split_ifs <;> simp

/-- C7: the analysis-timestamp status invariant.  A reconcile step preserves
"timestamp non-null implies phase Analyzing"; every engine transition out of
Analyzing leaves the timestamp null; a successful step on an Analyzing record
without a timestamp stamps it and applies traffic in the same step; and once
the timestamp is set the engine applies no further traffic scaling — so the
timestamp is non-null exactly on Analyzing records whose current-step traffic
has been applied. -/
theorem reconcile_timestamp_invariant (env : Env) (spec : ProgressiveDeploymentSpec)
    (st : ProgressiveDeploymentStatus) (hinv : analysisTimestampInv st) :
    analysisTimestampInv (Reconcile env spec st).status ∧
    (st.phase = "Analyzing" → (Reconcile env spec st).status.phase ≠ "Analyzing" →
      (Reconcile env spec st).status.lastAnalysisTime = none) ∧
    (st.phase = "Analyzing" → st.lastAnalysisTime = none →
      (Reconcile env spec st).err = false →
      (Reconcile env spec st).status.lastAnalysisTime.isSome = true ∧
      (Reconcile env spec st).effects ≠ []) ∧
    (st.phase = "Analyzing" → ∀ t0, st.lastAnalysisTime = some t0 →
      (Reconcile env spec st).effects = []) :=
  ⟨reconcile_preserves_inv env spec st hinv,
   fun h1 h2 => reconcile_exit_clears env spec st h1 h2,
   fun h1 h2 h3 => reconcile_arm_applies_traffic env spec st h1 h2 h3,
   fun h1 t0 h2 => reconcile_armed_no_rescale env spec st h1 t0 h2⟩

/-- Concrete instantiation of the timestamp invariant at a fresh Analyzing
record. -/
theorem reconcile_timestamp_invariant_witness :
    analysisTimestampInv (Reconcile exEnv0 exSpec exAnalyzingFresh).status ∧
    (exAnalyzingFresh.phase = "Analyzing" →
      (Reconcile exEnv0 exSpec exAnalyzingFresh).status.phase ≠ "Analyzing" →
      (Reconcile exEnv0 exSpec exAnalyzingFresh).status.lastAnalysisTime = none) ∧
    (exAnalyzingFresh.phase = "Analyzing" → exAnalyzingFresh.lastAnalysisTime = none →
      (Reconcile exEnv0 exSpec exAnalyzingFresh).err = false →
      (Reconcile exEnv0 exSpec exAnalyzingFresh).status.lastAnalysisTime.isSome = true ∧
      (Reconcile exEnv0 exSpec exAnalyzingFresh).effects ≠ []) ∧
    (exAnalyzingFresh.phase = "Analyzing" →
      ∀ t0, exAnalyzingFresh.lastAnalysisTime = some t0 →
      (Reconcile exEnv0 exSpec exAnalyzingFresh).effects = []) :=
  reconcile_timestamp_invariant exEnv0 exSpec exAnalyzingFresh
    (by unfold analysisTimestampInv exAnalyzingFresh; decide)

/-- C8: when every configured query succeeds, the health evaluation returns
no error, and the verdict is unhealthy exactly when some configured check
observed a value strictly above its threshold (a value equal to the threshold
is healthy, and the overall verdict is the conjunction over the configured
checks); with zero checks configured the result is healthy with the empty
observed map. -/
theorem analyzeHealth_success_spec (backend : String → Except String PromResult)
    (cfg : MetricsConfig) (ve vl : ℚ)
    (he : cfg.errorRate.query ≠ "" →
      QueryMetric (backend cfg.errorRate.query) = Except.ok ve)
    (hl : cfg.latency.query ≠ "" →
      QueryMetric (backend cfg.latency.query) = Except.ok vl) :
    (AnalyzeHealth backend cfg).2.2 = none ∧
    ((AnalyzeHealth backend cfg).1 = false ↔
      ((cfg.errorRate.query ≠ "" ∧ cfg.errorRate.threshold < ve) ∨
       (cfg.latency.query ≠ "" ∧ cfg.latency.threshold < vl))) ∧
    (cfg.errorRate.query = "" → cfg.latency.query = "" →
      AnalyzeHealth backend cfg = (true, some [], none)) := by
  by_cases hE : cfg.errorRate.query = "" <;> by_cases hL : cfg.latency.query = ""
  · simp [AnalyzeHealth, checkMetric, hE, hL]
  · simp [AnalyzeHealth, checkMetric, hE, hL, hl hL]
  · simp [AnalyzeHealth, checkMetric, hE, hL, he hE]
  · simp [AnalyzeHealth, checkMetric, hE, hL, he hE, hl hL]
    by_cases hc : cfg.latency.threshold < vl
    · simp [hc, not_le.mpr hc]
    · simp [hc, not_lt.mp hc]

/-- Concrete instantiation of the success-path health evaluation: errorRate
observed exactly at its threshold (healthy) and latency well below. -/
theorem analyzeHealth_success_spec_witness :
    (AnalyzeHealth exBackendHealthy exCfgBoth).2.2 = none ∧
    ((AnalyzeHealth exBackendHealthy exCfgBoth).1 = false ↔
      ((exCfgBoth.errorRate.query ≠ "" ∧ exCfgBoth.errorRate.threshold < 1) ∨
       (exCfgBoth.latency.query ≠ "" ∧ exCfgBoth.latency.threshold < 200))) ∧
    (exCfgBoth.errorRate.query = "" → exCfgBoth.latency.query = "" →
      AnalyzeHealth exBackendHealthy exCfgBoth = (true, some [], none)) :=
  analyzeHealth_success_spec exBackendHealthy exCfgBoth 1 200
    (fun _ => rfl) (fun _ => rfl)

/-- C9: the health evaluation returns an error exactly when some configured
check has a query that fails, and an individual query fails exactly when the
backend call errors or returns an empty vector; the failure is surfaced in
the returned error component rather than as a verdict. -/
theorem analyzeHealth_error_iff (backend : String → Except String PromResult)
    (cfg : MetricsConfig) :
    ((AnalyzeHealth backend cfg).2.2.isSome = true ↔
      ((cfg.errorRate.query ≠ "" ∧
          (QueryMetric (backend cfg.errorRate.query)).isOk = false) ∨
       (cfg.latency.query ≠ "" ∧
          (QueryMetric (backend cfg.latency.query)).isOk = false))) ∧
    (∀ q : String, (QueryMetric (backend q)).isOk = false ↔
      ((∃ e, backend q = Except.error e) ∨
        backend q = Except.ok (PromResult.vector []))) := by
  constructor
  · by_cases hE : cfg.errorRate.query = "" <;> by_cases hL : cfg.latency.query = ""
    · simp [AnalyzeHealth, checkMetric, hE, hL]
    · rcases hq : QueryMetric (backend cfg.latency.query) with e | v <;>
        simp [AnalyzeHealth, checkMetric, hE, hL, hq, Except.isOk, Except.toBool]
    · rcases hq : QueryMetric (backend cfg.errorRate.query) with e | v <;>
        simp [AnalyzeHealth, checkMetric, hE, hL, hq, Except.isOk, Except.toBool]
    · rcases hq1 : QueryMetric (backend cfg.errorRate.query) with e | v
      · simp [AnalyzeHealth, checkMetric, hE, hL, hq1, Except.isOk, Except.toBool]
      · rcases hq2 : QueryMetric (backend cfg.latency.query) with e | v <;>
          simp [AnalyzeHealth, checkMetric, hE, hL, hq1, hq2, Except.isOk, Except.toBool]
  · intro q
    rcases hb : backend q with e | r
    · simp [QueryMetric, hb, Except.isOk, Except.toBool]
    · rcases r with l | v
      · rcases l with _ | ⟨v0, l⟩ <;> simp [QueryMetric, hb, Except.isOk, Except.toBool]
      · simp [QueryMetric, hb, Except.isOk, Except.toBool]

/-- C10: whenever the health evaluation returns an error, the observed-values
map in the same return triple is the nil map — values from checks that had
already been queried successfully in that call are discarded. -/
theorem analyzeHealth_error_returns_nil_map (backend : String → Except String PromResult)
    (cfg : MetricsConfig)
    (h : (AnalyzeHealth backend cfg).2.2.isSome = true) :
    (AnalyzeHealth backend cfg).2.1 = none := by
  unfold AnalyzeHealth at h ⊢
  rcases h1 : checkMetric backend "errorRate" cfg.errorRate ([], true) with e | acc1 <;>
    simp [h1] at h ⊢
  rcases h2 : checkMetric backend "latency" cfg.latency acc1 with e | acc2 <;>
    simp [h2] at h ⊢
  split_ifs at h <;> simp at h

/-- Concrete instantiation of the nil-map-on-error behavior: the errorRate
query succeeds (observing 2) before the latency query fails, yet the returned
map is nil. -/
theorem analyzeHealth_error_returns_nil_map_witness :
    (AnalyzeHealth exBackendLatencyDown exCfgBoth).2.2.isSome = true ∧
    (AnalyzeHealth exBackendLatencyDown exCfgBoth).2.1 = none :=
  ⟨rfl, analyzeHealth_error_returns_nil_map exBackendLatencyDown exCfgBoth rfl⟩

end BgSwitch
